import Mathlib

/-!
Shallow embedding of the `rf_shared` Python library (models, checksum and
NATS client modules) together with proofs about its serialization
round-trips, error handling and state transitions.

Conventions of the embedding:

* Python `bytes` are lists of naturals below 256; machine words are `Nat`
  with explicit `% 2 ^ 32` where CPython's fixed-width arithmetic matters.
* Fallible Python code is embedded as `Except`/`Option` values; an
  exception that a `try` block catches is an `Except.error` of the inner
  computation, and the raised Python exception classes are reified as
  inductive error types.
* `datetime.datetime.isoformat` / `fromisoformat`, `pathlib.Path` and
  `uuid.UUID` are standard-library functions used by the source; they are
  embedded following their documented behaviour on the inputs the library
  feeds them (timezone-aware datetimes with whole-minute offsets, POSIX
  path strings, canonical UUID strings).
-/

/-! ## Decimal / hexadecimal digit printing and parsing

CPython formats the datetime fields with `%04d`-style zero padding and the
UUID integer with `%032x`; `fromisoformat` and `int(hex, 16)` read the
digits back.  `padDigits b w n` is the base-`b`, width-`w`, most
significant digit first rendering of `n`; `parseFixed`/`parseHexFixed`
consume exactly `w` digits from the front of a character list.
-/

/-- Character for a single digit value `d < 16`, matching CPython's
lowercase `%x`/`%d` formatting. -/
def digChar (d : Nat) : Char :=
  Char.ofNat (if d < 10 then 48 + d else 87 + d)

/-- Base-`b` zero-padded rendering of `n`, most significant digit first. -/
def padDigits (b : Nat) : Nat → Nat → List Char
  | 0, _ => []
  | w + 1, n => digChar (n / b ^ w) :: padDigits b w (n % b ^ w)

/-- Value of a decimal digit character, `none` on a non-digit. -/
def decVal? (c : Char) : Option Nat :=
  if 48 ≤ c.toNat ∧ c.toNat ≤ 57 then some (c.toNat - 48) else none

/-- Value of a hexadecimal digit character (both cases), `none` otherwise;
this is the digit test of CPython's `int(hex, 16)`. -/
def hexVal? (c : Char) : Option Nat :=
  if 48 ≤ c.toNat ∧ c.toNat ≤ 57 then some (c.toNat - 48)
  else if 97 ≤ c.toNat ∧ c.toNat ≤ 102 then some (c.toNat - 87)
  else if 65 ≤ c.toNat ∧ c.toNat ≤ 70 then some (c.toNat - 55)
  else none

/-- Consume exactly `w` digit characters in base `b` (digit values read by
`dv`), extending accumulator `acc`. -/
def parseFixedB (dv : Char → Option Nat) (b : Nat) : Nat → Nat → List Char → Option (Nat × List Char)
  | 0, acc, cs => some (acc, cs)
  | w + 1, acc, cs =>
    match cs with
    | [] => none
    | c :: rest =>
      match dv c with
      | some d => parseFixedB dv b w (acc * b + d) rest
      | none => none

/-- Consume exactly `w` decimal digits. -/
def parseFixed (w : Nat) (cs : List Char) : Option (Nat × List Char) :=
  parseFixedB decVal? 10 w 0 cs

/-! ## `datetime.datetime` (timezone-aware)

`MetadataRecord.timestamp` is a timezone-aware `datetime.datetime`.  The
embedding keeps the calendar fields and the UTC offset in whole minutes
(the form `datetime.timezone(timedelta(minutes=...))` produces); CPython's
`isoformat` renders `YYYY-MM-DDTHH:MM:SS[.ffffff]±HH:MM`, printing the
microseconds exactly when they are nonzero, and `fromisoformat` inverts
that rendering.
-/

/-- Leap-year test of the proleptic Gregorian calendar used by `datetime`. -/
def isLeapYear (y : Nat) : Bool :=
  y % 4 = 0 && (y % 100 != 0 || y % 400 = 0)

/-- Length of month `m` of year `y` in the `datetime` calendar. -/
def daysInMonth (y m : Nat) : Nat :=
  if m = 2 then (if isLeapYear y then 29 else 28)
  else if m = 4 ∨ m = 6 ∨ m = 9 ∨ m = 11 then 30
  else 31

/-- Timezone-aware `datetime.datetime` value; `tzOffsetMinutes` is the UTC
offset of its `tzinfo` in minutes. -/
structure PyDateTime where
  year : Nat
  month : Nat
  day : Nat
  hour : Nat
  minute : Nat
  second : Nat
  microsecond : Nat
  tzOffsetMinutes : Int
deriving DecidableEq, Repr

/-- Field ranges `datetime.datetime` itself enforces on construction
(`MINYEAR ≤ year ≤ MAXYEAR`, calendar-valid day, sub-day fields in range,
offset strictly between -24h and +24h in whole minutes). -/
def PyDateTime.Valid (t : PyDateTime) : Prop :=
  1 ≤ t.year ∧ t.year ≤ 9999 ∧
  1 ≤ t.month ∧ t.month ≤ 12 ∧
  1 ≤ t.day ∧ t.day ≤ daysInMonth t.year t.month ∧
  t.hour ≤ 23 ∧ t.minute ≤ 59 ∧ t.second ≤ 59 ∧
  t.microsecond ≤ 999999 ∧
  -1439 ≤ t.tzOffsetMinutes ∧ t.tzOffsetMinutes ≤ 1439

instance (t : PyDateTime) : Decidable t.Valid := by
  unfold PyDateTime.Valid; infer_instance

/-- Rendering of the UTC offset as `±HH:MM`, sign `-` exactly for negative
offsets, as `datetime.isoformat` prints an aware datetime's offset. -/
def offsetChars (off : Int) : List Char :=
  if off < 0 then
    '-' :: (padDigits 10 2 ((-off).toNat / 60) ++ ':' :: padDigits 10 2 ((-off).toNat % 60))
  else
    '+' :: (padDigits 10 2 (off.toNat / 60) ++ ':' :: padDigits 10 2 (off.toNat % 60))

/-- Character-level `datetime.isoformat()`:
`YYYY-MM-DDTHH:MM:SS[.ffffff]±HH:MM`, microseconds printed iff nonzero. -/
def PyDateTime.isoformatChars (t : PyDateTime) : List Char :=
  padDigits 10 4 t.year ++ '-' ::
  (padDigits 10 2 t.month ++ '-' ::
  (padDigits 10 2 t.day ++ 'T' ::
  (padDigits 10 2 t.hour ++ ':' ::
  (padDigits 10 2 t.minute ++ ':' ::
  (padDigits 10 2 t.second ++
  ((if t.microsecond = 0 then [] else '.' :: padDigits 10 6 t.microsecond) ++
  offsetChars t.tzOffsetMinutes))))))

/-- `datetime.isoformat()` as a string. -/
def PyDateTime.isoformat (t : PyDateTime) : String :=
  String.mk t.isoformatChars

/-- Expect one literal character at the head of the input. -/
def expectChar (c : Char) : List Char → Option (List Char)
  | [] => none
  | x :: xs => if x = c then some xs else none

/-- Date component `YYYY-MM-DD` of an isoformat string, with the range
checks the `datetime` constructor performs. -/
def parseDatePart (cs : List Char) : Option (Nat × Nat × Nat × List Char) :=
  match parseFixed 4 cs with
  | none => none
  | some (y, cs) =>
    match expectChar '-' cs with
    | none => none
    | some cs =>
      match parseFixed 2 cs with
      | none => none
      | some (mo, cs) =>
        match expectChar '-' cs with
        | none => none
        | some cs =>
          match parseFixed 2 cs with
          | none => none
          | some (d, cs) =>
            if 1 ≤ y ∧ 1 ≤ mo ∧ mo ≤ 12 ∧ 1 ≤ d ∧ d ≤ daysInMonth y mo then
              some (y, mo, d, cs)
            else none

/-- Optional fractional-seconds component: six digits after a dot, or zero
microseconds when the dot is absent. -/
def parseMicroPart : List Char → Option (Nat × List Char)
  | '.' :: cs => parseFixed 6 cs
  | cs => some (0, cs)

/-- Time component `HH:MM:SS[.ffffff]` of an isoformat string, with range
checks; absent fractional seconds read as zero microseconds. -/
def parseTimePart (cs : List Char) : Option (Nat × Nat × Nat × Nat × List Char) :=
  match parseFixed 2 cs with
  | none => none
  | some (h, cs) =>
    match expectChar ':' cs with
    | none => none
    | some cs =>
      match parseFixed 2 cs with
      | none => none
      | some (mi, cs) =>
        match expectChar ':' cs with
        | none => none
        | some cs =>
          match parseFixed 2 cs with
          | none => none
          | some (s, cs) =>
            match parseMicroPart cs with
            | none => none
            | some (us, cs) =>
              if h ≤ 23 ∧ mi ≤ 59 ∧ s ≤ 59 then some (h, mi, s, us, cs) else none

/-- Sign character opening the UTC offset component. -/
def parseSignPart : List Char → Option (Int × List Char)
  | '+' :: cs => some (1, cs)
  | '-' :: cs => some (-1, cs)
  | _ => none

/-- UTC offset component `±HH:MM` of an isoformat string, returned in
minutes, with the range checks `datetime.timezone` performs. -/
def parseOffsetPart (cs : List Char) : Option (Int × List Char) :=
  match parseSignPart cs with
  | none => none
  | some (sign, cs) =>
    match parseFixed 2 cs with
    | none => none
    | some (oh, cs) =>
      match expectChar ':' cs with
      | none => none
      | some cs =>
        match parseFixed 2 cs with
        | none => none
        | some (om, cs) =>
          if oh ≤ 23 ∧ om ≤ 59 then some (sign * ((oh : Int) * 60 + (om : Int)), cs) else none

/-- Character-level `datetime.fromisoformat`, reading back exactly the
grammar `isoformat` emits for an aware datetime (the documented contract
of `fromisoformat`: the inverse of `isoformat`), including the range
checks the `datetime` constructor performs. -/
def fromisoChars (cs : List Char) : Option PyDateTime :=
  match parseDatePart cs with
  | none => none
  | some (y, mo, d, cs) =>
    match expectChar 'T' cs with
    | none => none
    | some cs =>
      match parseTimePart cs with
      | none => none
      | some (h, mi, s, us, cs) =>
        match parseOffsetPart cs with
        | none => none
        | some (off, cs) =>
          if cs = [] then some ⟨y, mo, d, h, mi, s, us, off⟩ else none

/-- `datetime.fromisoformat` on strings. -/
def PyDateTime.fromisoformat (s : String) : Option PyDateTime :=
  fromisoChars s.data

/-! ## `pathlib.Path` (POSIX flavour)

`MetadataRecord.source_path` and `Envelope.source_path` are `pathlib.Path`
values.  Constructing a `Path` from a string normalizes it: the string is
split on `/`, empty and `.` components are dropped, and a leading `/`
makes the path absolute.  `str(path)` joins the components back with `/`,
rendering the empty relative path as `.`.  Two `Path`s are equal exactly
when their normalized forms are equal.  (The POSIX special case of a
path root written `//` is not distinguished from `/`.)
-/

/-- Split a character list on `/` separators (components may be empty). -/
def splitSlash : List Char → List (List Char)
  | [] => [[]]
  | c :: cs =>
    if c = '/' then [] :: splitSlash cs
    else
      match splitSlash cs with
      | [] => [[c]]
      | p :: ps => (c :: p) :: ps

/-- Join components with `/` separators. -/
def joinSlash : List (List Char) → List Char
  | [] => []
  | [p] => p
  | p :: ps => p ++ '/' :: joinSlash ps

/-- Component filter of the `pathlib` parser: empty and `.` components are
dropped. -/
def isRealPart (p : List Char) : Bool :=
  decide (p ≠ [] ∧ p ≠ ['.'])

/-- Normalized `pathlib.PurePosixPath` value. -/
structure PyPath where
  absolute : Bool
  parts : List (List Char)
deriving DecidableEq, Repr

/-- Construction of a `Path` from a string (`pathlib`'s parsing). -/
def parsePath (s : String) : PyPath :=
  { absolute := decide (s.data.head? = some '/'),
    parts := (splitSlash s.data).filter isRealPart }

/-- Character-level `str(path)`. -/
def PyPath.strChars (p : PyPath) : List Char :=
  if p.parts = [] then (if p.absolute then ['/'] else ['.'])
  else if p.absolute then '/' :: joinSlash p.parts
  else joinSlash p.parts

/-- String form `str(path)` of a path. -/
def PyPath.str (p : PyPath) : String :=
  String.mk p.strChars

/-- Invariant every `Path` built by `parsePath` enjoys: components are
nonempty, are not `.`, and contain no separator. -/
def PyPath.Normalized (p : PyPath) : Prop :=
  ∀ q ∈ p.parts, q ≠ [] ∧ q ≠ ['.'] ∧ '/' ∉ q

instance (p : PyPath) : Decidable p.Normalized := by
  unfold PyPath.Normalized; infer_instance

/-! ## `uuid.UUID`

`Envelope.message_id` is a `uuid.UUID`, a 128-bit integer.  `str(uuid)`
renders it as 32 lowercase hexadecimal digits in the 8-4-4-4-12 hyphenated
layout; the `uuid.UUID(hex)` constructor strips hyphens, requires exactly
32 hexadecimal digits and reads them back with `int(hex, 16)` (the
`urn:`/braced input forms the constructor also strips are not modelled).
-/

/-- Character-level `str(uuid.UUID)`: `%032x` plus hyphens after the 8th,
12th, 16th and 20th digits. -/
def uuidStrChars (n : Nat) : List Char :=
  let h := padDigits 16 32 n
  h.take 8 ++ '-' ::
  ((h.drop 8).take 4 ++ '-' ::
  ((h.drop 12).take 4 ++ '-' ::
  ((h.drop 16).take 4 ++ '-' ::
  (h.drop 20))))

/-- String form of a UUID. -/
def uuidStr (n : Nat) : String :=
  String.mk (uuidStrChars n)

/-- Character-level `uuid.UUID(hex)` constructor: strip hyphens, require
32 hex digits, read them as one 128-bit integer. -/
def uuidFromChars (cs : List Char) : Option Nat :=
  match parseFixedB hexVal? 16 32 0 (cs.filter (fun c => c != '-')) with
  | some (n, []) => some n
  | _ => none

/-- `uuid.UUID` on strings. -/
def uuidFromString (s : String) : Option Nat :=
  uuidFromChars s.data

/-! ## Python values, mappings and exceptions

`to_dict`/`from_dict` traffic in JSON-compatible Python dictionaries.
A mapping is embedded as an association list in insertion order (Python
dicts preserve it); `dictGet?` is subscripting.  The exceptions the
library code can see are reified: `LowErr` stands for the low-level
exception a `try` block may catch (`KeyError`/`TypeError`/`ValueError`,
plus `AttributeError`, which the `except` clauses of `models.py` do NOT
catch), and `PyError` for what escapes the library functions.
-/

/-- JSON-compatible Python value. -/
inductive PyValue where
  | str (s : String)
  | int (n : Int)
  | float (q : Rat)
  | dict (entries : List (String × PyValue))
deriving Repr

/-- Python mapping in insertion order. -/
abbrev PyDict := List (String × PyValue)

/-- Mapping subscript, `none` when the key is absent. -/
def dictGet? : PyDict → String → Option PyValue
  | [], _ => none
  | (k, v) :: rest, key => if k = key then some v else dictGet? rest key

/-- Low-level exception raised inside a parsing `try` block. -/
inductive LowErr where
  | keyError (key : String)
  | typeError (m : String)
  | valueError (m : String)
  | attributeError (m : String)
deriving DecidableEq, Repr

/-- Rendering `str(e)` used when the exception is interpolated into the
wrapping error's message. -/
def LowErr.msg : LowErr → String
  | .keyError k => "'" ++ k ++ "'"
  | .typeError m => m
  | .valueError m => m
  | .attributeError m => m

/-- Whether `except (KeyError, TypeError, ValueError)` catches this
exception. -/
def LowErr.isCaught : LowErr → Bool
  | .attributeError _ => false
  | _ => true

/-- Exception escaping a library function: the three error classes of
`rf_shared.exceptions` (the parsing errors keeping their `__cause__`),
`ConnectionError`, or an uncaught low-level exception. -/
inductive PyError where
  | metadataRecordParsing (m : String) (cause : LowErr)
  | envelopeParsing (m : String) (cause : LowErr)
  | checksumMismatch (m : String)
  | connectionError (m : String)
  | uncaught (e : LowErr)
deriving DecidableEq, Repr

/-! ## `rf_shared.models.MetadataRecord`

The frozen dataclass and its methods `validate_checksum`, `to_dict` and
`from_dict`.  Python floats carried in `length` are embedded as exact
rationals (no arithmetic is ever performed on them; NaN payloads are out
of scope).  Note that Python dataclasses do not check field types at run
time; the embedding gives the fields their declared types and `from_dict`
therefore requires the declared shapes, which every value the library
itself produces satisfies.
-/

/-- Metadata for a single IQ data recording (`models.MetadataRecord`). -/
structure MetadataRecord where
  hostname : String
  timestamp : PyDateTime
  source_path : PyPath
  serial : String
  organization : String
  gcs : String
  group : String
  frequency : Int
  interval : Int
  length : Rat
  gain : Int
  sampling_rate : Int
  bit_depth : Int
  checksum : String
deriving DecidableEq, Repr

/-- Declared dataclass fields, in declaration order (= `asdict` order). -/
def mrFieldNames : List String :=
  ["hostname", "timestamp", "source_path", "serial", "organization", "gcs",
   "group", "frequency", "interval", "length", "gain", "sampling_rate",
   "bit_depth", "checksum"]

/-- `MetadataRecord.validate_checksum`: raises `ChecksumMismatchError`
when the calculated digest differs from the stored one, returns nothing
otherwise. -/
def MetadataRecord.validate_checksum (r : MetadataRecord)
    (calculated_checksum : String) : Except PyError Unit :=
  if r.checksum ≠ calculated_checksum then
    .error (.checksumMismatch
      ("Checksum mismatch for file. Expected: '" ++ r.checksum ++
        "', Got: '" ++ calculated_checksum ++ "'"))
  else
    .ok ()

/-- `MetadataRecord.to_dict`: `asdict` plus ISO rendering of the
timestamp and string rendering of the path. -/
def MetadataRecord.to_dict (r : MetadataRecord) : PyDict :=
  [("hostname", .str r.hostname),
   ("timestamp", .str r.timestamp.isoformat),
   ("source_path", .str r.source_path.str),
   ("serial", .str r.serial),
   ("organization", .str r.organization),
   ("gcs", .str r.gcs),
   ("group", .str r.group),
   ("frequency", .int r.frequency),
   ("interval", .int r.interval),
   ("length", .float r.length),
   ("gain", .int r.gain),
   ("sampling_rate", .int r.sampling_rate),
   ("bit_depth", .int r.bit_depth),
   ("checksum", .str r.checksum)]

/-- Step `data_copy["timestamp"] = datetime.fromisoformat(data_copy["timestamp"])`:
`KeyError` on a missing key, `TypeError` on a non-string, `ValueError` on
an unparsable string. -/
def tsStep (d : PyDict) : Except LowErr PyDateTime :=
  match dictGet? d "timestamp" with
  | none => .error (.keyError "timestamp")
  | some (.str s) =>
    match PyDateTime.fromisoformat s with
    | some t => .ok t
    | none => .error (.valueError ("Invalid isoformat string: '" ++ s ++ "'"))
  | some _ => .error (.typeError "fromisoformat: argument must be str")

/-- Step `data_copy["source_path"] = Path(data_copy["source_path"])`:
`KeyError` on a missing key, `TypeError` on a non-string; any string is a
valid path. -/
def spStep (d : PyDict) : Except LowErr PyPath :=
  match dictGet? d "source_path" with
  | none => .error (.keyError "source_path")
  | some (.str s) => .ok (parsePath s)
  | some _ => .error (.typeError "argument should be a str or an os.PathLike object")

/-- Keyword argument of declared type `str` in the `cls(**data_copy)`
call; a missing key is the constructor's `TypeError`. -/
def argStr (d : PyDict) (k : String) : Except LowErr String :=
  match dictGet? d k with
  | some (.str s) => .ok s
  | some _ => .error (.typeError ("argument '" ++ k ++ "' has the wrong type"))
  | none => .error (.typeError ("missing required argument: '" ++ k ++ "'"))

/-- Keyword argument of declared type `int` in the `cls(**data_copy)` call. -/
def argInt (d : PyDict) (k : String) : Except LowErr Int :=
  match dictGet? d k with
  | some (.int n) => .ok n
  | some _ => .error (.typeError ("argument '" ++ k ++ "' has the wrong type"))
  | none => .error (.typeError ("missing required argument: '" ++ k ++ "'"))

/-- Keyword argument of declared type `float` in the `cls(**data_copy)` call. -/
def argFloat (d : PyDict) (k : String) : Except LowErr Rat :=
  match dictGet? d k with
  | some (.float q) => .ok q
  | some _ => .error (.typeError ("argument '" ++ k ++ "' has the wrong type"))
  | none => .error (.typeError ("missing required argument: '" ++ k ++ "'"))

/-- The `cls(**data_copy)` call: rejects unexpected keyword arguments,
then binds every declared field (timestamp and source path already
converted). -/
def ctorStep (d : PyDict) (ts : PyDateTime) (sp : PyPath) :
    Except LowErr MetadataRecord :=
  if d.all (fun kv => mrFieldNames.contains kv.1) then
    match argStr d "hostname" with
    | .error e => .error e
    | .ok hostname =>
      match argStr d "serial" with
      | .error e => .error e
      | .ok serial =>
        match argStr d "organization" with
        | .error e => .error e
        | .ok organization =>
          match argStr d "gcs" with
          | .error e => .error e
          | .ok gcs =>
            match argStr d "group" with
            | .error e => .error e
            | .ok grp =>
              match argInt d "frequency" with
              | .error e => .error e
              | .ok frequency =>
                match argInt d "interval" with
                | .error e => .error e
                | .ok interval =>
                  match argFloat d "length" with
                  | .error e => .error e
                  | .ok len =>
                    match argInt d "gain" with
                    | .error e => .error e
                    | .ok gain =>
                      match argInt d "sampling_rate" with
                      | .error e => .error e
                      | .ok sampling_rate =>
                        match argInt d "bit_depth" with
                        | .error e => .error e
                        | .ok bit_depth =>
                          match argStr d "checksum" with
                          | .error e => .error e
                          | .ok checksum =>
                            .ok ⟨hostname, ts, sp, serial, organization, gcs,
                              grp, frequency, interval, len, gain,
                              sampling_rate, bit_depth, checksum⟩
  else
    .error (.typeError "got an unexpected keyword argument")

/-- Body of the `try` block of `MetadataRecord.from_dict`. -/
def mrCore (d : PyDict) : Except LowErr MetadataRecord :=
  match tsStep d with
  | .error e => .error e
  | .ok ts =>
    match spStep d with
    | .error e => .error e
    | .ok sp => ctorStep d ts sp

/-- `MetadataRecord.from_dict`: wraps any caught low-level failure in a
`MetadataRecordParsingError` whose message interpolates, and whose cause
is, the low-level exception. -/
def MetadataRecord.from_dict (d : PyDict) : Except PyError MetadataRecord :=
  match mrCore d with
  | .ok r => .ok r
  | .error e =>
    if e.isCaught then
      .error (.metadataRecordParsing ("Invalid metadata payload structure: " ++ e.msg) e)
    else
      .error (.uncaught e)

/-! ## `rf_shared.models.Envelope` -/

/-- Message structure for an RF data message (`models.Envelope`);
`message_id` is the UUID's 128-bit integer value. -/
structure Envelope where
  source_path : PyPath
  payload : PyValue
  message_id : Nat
deriving Repr

/-- `Envelope.to_dict`: string renderings of the path and the UUID, the
payload passed through unchanged. -/
def Envelope.to_dict (e : Envelope) : PyDict :=
  [("source_path", .str e.source_path.str),
   ("payload", e.payload),
   ("message_id", .str (uuidStr e.message_id))]

/-- Body of the `try` block of `Envelope.from_dict`, evaluating the three
keyword arguments in source order.  A non-string `message_id` is the
`AttributeError` of `uuid.UUID`'s `hex.replace(...)` — which the `except`
clause does not catch. -/
def envCore (d : PyDict) : Except LowErr Envelope :=
  match dictGet? d "source_path" with
  | none => .error (.keyError "source_path")
  | some (.str sps) =>
    match dictGet? d "payload" with
    | none => .error (.keyError "payload")
    | some pl =>
      match dictGet? d "message_id" with
      | none => .error (.keyError "message_id")
      | some (.str mids) =>
        match uuidFromString mids with
        | some mid => .ok ⟨parsePath sps, pl, mid⟩
        | none => .error (.valueError "badly formed hexadecimal UUID string")
      | some _ => .error (.attributeError "object has no attribute 'replace'")
  | some _ => .error (.typeError "argument should be a str or an os.PathLike object")

/-- `Envelope.from_dict`: wraps any caught low-level failure in an
`EnvelopeParsingError` whose message interpolates, and whose cause is,
the low-level exception; an uncaught exception propagates as itself. -/
def Envelope.from_dict (d : PyDict) : Except PyError Envelope :=
  match envCore d with
  | .ok e => .ok e
  | .error e =>
    if e.isCaught then
      .error (.envelopeParsing ("Invalid envelope structure: " ++ e.msg) e)
    else
      .error (.uncaught e)

/-- `Envelope.from_metadata`: wraps a record in a fresh envelope.  The
fresh `uuid.uuid4()` value is nondeterministic input and is passed as the
`freshId` argument. -/
def Envelope.from_metadata (metadata : MetadataRecord) (freshId : Nat) : Envelope :=
  { source_path := metadata.source_path,
    payload := .dict metadata.to_dict,
    message_id := freshId }

/-! ## `rf_shared.checksum` and `hashlib.md5`

The checksum module hashes with `hashlib.md5`.  The hasher state is the
byte sequence absorbed so far (`update` concatenates; MD5 processes the
whole message only at digest time), and `hexdigest` is a concrete MD5
implementation over the absorbed bytes with `Nat` arithmetic reduced
modulo `2 ^ 32`.
-/

/-- MD5 sine-derived round constants. -/
def md5K : List Nat :=
  [3614090360, 3905402710, 606105819, 3250441966,
   4118548399, 1200080426, 2821735955, 4249261313,
   1770035416, 2336552879, 4294925233, 2304563134,
   1804603682, 4254626195, 2792965006, 1236535329,
   4129170786, 3225465664, 643717713, 3921069994,
   3593408605, 38016083, 3634488961, 3889429448,
   568446438, 3275163606, 4107603335, 1163531501,
   2850285829, 4243563512, 1735328473, 2368359562,
   4294588738, 2272392833, 1839030562, 4259657740,
   2763975236, 1272893353, 4139469664, 3200236656,
   681279174, 3936430074, 3572445317, 76029189,
   3654602809, 3873151461, 530742520, 3299628645,
   4096336452, 1126891415, 2878612391, 4237533241,
   1700485571, 2399980690, 4293915773, 2240044497,
   1873313359, 4264355552, 2734768916, 1309151649,
   4149444226, 3174756917, 718787259, 3951481745]

/-- MD5 per-round left-rotation amounts. -/
def md5S : List Nat :=
  [7, 12, 17, 22, 7, 12, 17, 22, 7, 12, 17, 22, 7, 12, 17, 22,
   5, 9, 14, 20, 5, 9, 14, 20, 5, 9, 14, 20, 5, 9, 14, 20,
   4, 11, 16, 23, 4, 11, 16, 23, 4, 11, 16, 23, 4, 11, 16, 23,
   6, 10, 15, 21, 6, 10, 15, 21, 6, 10, 15, 21, 6, 10, 15, 21]

/-- 32-bit left rotation. -/
def rotl32 (x s : Nat) : Nat :=
  ((x <<< s) % 4294967296) ||| (x >>> (32 - s))

/-- MD5 round mixing function. -/
def md5F (i b c d : Nat) : Nat :=
  if i < 16 then (b &&& c) ||| ((4294967295 ^^^ b) &&& d)
  else if i < 32 then (d &&& b) ||| ((4294967295 ^^^ d) &&& c)
  else if i < 48 then b ^^^ c ^^^ d
  else c ^^^ (b ||| (4294967295 ^^^ d))

/-- MD5 message-word schedule. -/
def md5G (i : Nat) : Nat :=
  if i < 16 then i
  else if i < 32 then (5 * i + 1) % 16
  else if i < 48 then (3 * i + 5) % 16
  else (7 * i) % 16

/-- Little-endian 32-bit word `i` of a 64-byte block. -/
def leWord (block : List Nat) (i : Nat) : Nat :=
  block.getD (4 * i) 0 + 256 * block.getD (4 * i + 1) 0 +
    65536 * block.getD (4 * i + 2) 0 + 16777216 * block.getD (4 * i + 3) 0

/-- One MD5 round on the register quadruple. -/
def md5Step (block : List Nat) (st : Nat × Nat × Nat × Nat) (i : Nat) :
    Nat × Nat × Nat × Nat :=
  let f := (md5F i st.2.1 st.2.2.1 st.2.2.2 + st.1 + md5K.getD i 0 +
    leWord block (md5G i)) % 4294967296
  (st.2.2.2, (st.2.1 + rotl32 f (md5S.getD i 0)) % 4294967296, st.2.1, st.2.2.1)

/-- Process one 64-byte block. -/
def md5Block (st : Nat × Nat × Nat × Nat) (block : List Nat) :
    Nat × Nat × Nat × Nat :=
  let r := (List.range 64).foldl (md5Step block) st
  ((st.1 + r.1) % 4294967296, (st.2.1 + r.2.1) % 4294967296,
   (st.2.2.1 + r.2.2.1) % 4294967296, (st.2.2.2 + r.2.2.2) % 4294967296)

/-- Little-endian byte rendering of `n` on `k` bytes. -/
def leBytes : Nat → Nat → List Nat
  | 0, _ => []
  | k + 1, n => n % 256 :: leBytes k (n / 256)

/-- MD5 padding: `0x80`, zeros to 56 mod 64, 64-bit little-endian bit
length.  The zero count is `(55 - len) mod 64`, written as
`(119 - len % 64) % 64` so that the subtraction never truncates
(`len % 64 ≤ 63 < 119`). -/
def md5Pad (msg : List Nat) : List Nat :=
  msg ++ 128 :: (List.replicate ((119 - msg.length % 64) % 64) 0 ++
    leBytes 8 ((msg.length * 8) % 18446744073709551616))

/-- Split a padded message into 64-byte blocks (structural recursion on a
fuel bound; every step consumes at least one byte, so `bs.length` fuel
always suffices). -/
def chunk64Go : Nat → List Nat → List (List Nat)
  | _, [] => []
  | 0, _ => []
  | fuel + 1, bs => bs.take 64 :: chunk64Go fuel (bs.drop 64)

/-- Split a padded message into 64-byte blocks. -/
def chunk64 (bs : List Nat) : List (List Nat) :=
  chunk64Go bs.length bs

/-- Full MD5 hex digest of a byte sequence. -/
def md5hexDigest (msg : List Nat) : String :=
  let r := (chunk64 (md5Pad msg)).foldl md5Block
    (1732584193, 4023233417, 2562383102, 271733878)
  String.mk (((leBytes 4 r.1 ++ leBytes 4 r.2.1 ++ leBytes 4 r.2.2.1 ++
    leBytes 4 r.2.2.2).map (padDigits 16 2)).flatten)

/-- State of a `hashlib.md5()` object: the bytes absorbed so far. -/
structure Md5Hasher where
  absorbed : List Nat
deriving DecidableEq, Repr

/-- `hasher.update(data)` absorbs the chunk. -/
def Md5Hasher.update (h : Md5Hasher) (data : List Nat) : Md5Hasher :=
  ⟨h.absorbed ++ data⟩

/-- `hasher.hexdigest()`. -/
def Md5Hasher.hexdigest (h : Md5Hasher) : String :=
  md5hexDigest h.absorbed

/-- `checksum.get_checksum`: one `update` with the whole buffer. -/
def get_checksum (data : List Nat) : String :=
  ((Md5Hasher.mk []).update data).hexdigest

/-- The `while chunk := f.read(8192)` loop of `get_file_checksum`,
structurally recursive on a fuel bound (every iteration absorbs at least
one byte, so `remaining.length` fuel always suffices): absorb the file in
chunks of at most 8192 bytes, stopping when a read returns no bytes. -/
def readChunksGo : Nat → Md5Hasher → List Nat → Md5Hasher
  | _, hasher, [] => hasher
  | 0, hasher, _ => hasher
  | fuel + 1, hasher, remaining =>
    readChunksGo fuel (hasher.update (remaining.take 8192)) (remaining.drop 8192)

/-- The read loop of `get_file_checksum` started with enough fuel. -/
def readChunksLoop (hasher : Md5Hasher) (remaining : List Nat) : Md5Hasher :=
  readChunksGo remaining.length hasher remaining

/-- `checksum.get_file_checksum` on a file holding exactly `fileBytes`. -/
def get_file_checksum (fileBytes : List Nat) : String :=
  (readChunksLoop (Md5Hasher.mk []) fileBytes).hexdigest

/-! ## `rf_shared.nats_client`

The consumer and producer are stateful objects over an async transport.
The embedding reifies the transport interactions the claims are about:
the outcome of `nats.connect` / `sub.fetch` is an explicit input, the
`self.nc`/`self.js` handles are `Option` fields of an explicit state, a
raised exception is an `Except.error` result, and the logger is an event
list.  `json.dumps(d).encode()` and JSON decoding at the receiving end
are treated as the identity on mapping values: the transport payload is
modelled at the JSON-value level.
-/

/-- Acknowledgement callback carried by a `ReceivedMessage`: the default
`no_op_ack` or the `ack` bound method of NATS message `ackId`. -/
inductive AckFn where
  | noOp
  | msgAck (ackId : Nat)
deriving DecidableEq, Repr

/-- Transport-agnostic message (`models.ReceivedMessage`). -/
structure ReceivedMessage where
  data : List Nat
  ack : AckFn
deriving DecidableEq, Repr

/-- Inbound NATS message as the `nats` library delivers it. -/
structure NatsMsgModel where
  data : List Nat
  ackId : Nat
deriving DecidableEq, Repr

/-- Outcome of one `sub.fetch(1, timeout=timeout)` call: a (possibly
empty) batch, a `nats.errors.TimeoutError`, or any other transport-level
failure. -/
inductive FetchOutcome where
  | msgs (batch : List NatsMsgModel)
  | timeout
  | transportError (e : String)
deriving DecidableEq, Repr

/-- The `fetch_one` closure returned by `NatsConsumer.jetstream_subscribe`,
applied to the outcome of its inner `sub.fetch` call.  Returns the
result (a raised exception as `Except.error`) together with the log lines
the call emits. -/
def fetch_one (outcome : FetchOutcome) :
    Except String (Option ReceivedMessage) × List String :=
  match outcome with
  | .msgs [] => (.ok none, [])
  | .msgs (m :: _) => (.ok (some ⟨m.data, .msgAck m.ackId⟩), [])
  | .timeout => (.ok none, [])
  | .transportError e => (.error e, [])

/-- Observable event of the `core_subscribe` dispatch path. -/
inductive DispatchEvent where
  | invoked (data : List Nat)
  | handlerErrorLogged (subject : String) (e : String)
deriving DecidableEq, Repr

/-- The `message_handler_adapter` closure of `NatsConsumer.core_subscribe`
around a caller-supplied `callback` (a raising callback is modelled as
returning `Except.error`).  The adapter itself raising would be an
`Except.error` result; its `try`/`except` makes that impossible, so it
returns the dispatch events of the delivery. -/
def message_handler_adapter (subject : String)
    (callback : ReceivedMessage → Except String Unit)
    (natsMsg : NatsMsgModel) : Except String (List DispatchEvent) :=
  match callback ⟨natsMsg.data, .noOp⟩ with
  | .ok _ => .ok [.invoked natsMsg.data]
  | .error e =>
    .ok [.invoked natsMsg.data,
         .handlerErrorLogged subject ("Error in callback for subject '" ++ subject ++ "': " ++ e)]

/-- Sequential delivery of a core-subscription's inbound messages: each
message goes through the adapter; an exception escaping the adapter would
terminate the subscription, dropping the remaining messages. -/
def deliverAll (subject : String)
    (callback : ReceivedMessage → Except String Unit) :
    List NatsMsgModel → List DispatchEvent
  | [] => []
  | m :: ms =>
    match message_handler_adapter subject callback m with
    | .ok evs => evs ++ deliverAll subject callback ms
    | .error _ => []

/-- Mutable state of a `NatsConsumer`: the `self.nc` handle and the log. -/
structure NatsConsumerState where
  nc : Option Nat
  logs : List String
deriving DecidableEq, Repr

/-- `NatsConsumer.connect`, applied to the outcome of `nats.connect`:
on success the handle is stored; on failure the error is logged and the
same exception propagates (`raise`), the handle untouched.  The second
component is the exception propagated to the caller, if any. -/
def NatsConsumer.connect (st : NatsConsumerState)
    (transport : Except String Nat) : NatsConsumerState × Option String :=
  match transport with
  | .ok conn =>
    ({ st with nc := some conn, logs := st.logs ++ ["Connected to NATS"] }, none)
  | .error e =>
    ({ st with logs := st.logs ++ ["NATS connection failed: " ++ e] }, some e)

/-- Mutable state of a `NatsProducer`: the configured subject, the
`self.nc` and `self.js` handles, and the log. -/
structure NatsProducerState where
  subject : String
  nc : Option Nat
  js : Option Nat
  logs : List String
deriving DecidableEq, Repr

/-- `NatsProducer.connect`, applied to the outcome of `nats.connect`:
on success the connection and its JetStream context are stored; on
failure the error is logged and the same exception propagates, both
handles untouched. -/
def NatsProducer.connect (st : NatsProducerState)
    (transport : Except String Nat) : NatsProducerState × Option String :=
  match transport with
  | .ok conn =>
    ({ st with
        nc := some conn
        js := some conn
        logs := st.logs ++ ["Connected to NATS"] }, none)
  | .error e =>
    ({ st with logs := st.logs ++ ["Unexpected error connecting to NATS: " ++ e] }, some e)

/-- `NatsProducer.close`: awaits `self.nc.close()` when set and logs;
neither handle field is assigned. -/
def NatsProducer.close (st : NatsProducerState) : NatsProducerState :=
  { st with logs := st.logs ++ ["NATS consumer connection closed."] }

/-- `NatsProducer.publish_raw`: guards on `self.js`, then publishes the
payload on the given subject.  The published payload is the JSON value of
the encoded bytes. -/
def NatsProducer.publish_raw (st : NatsProducerState) (subject : String)
    (payload : PyValue) : Except PyError (String × PyValue) :=
  if st.js.isNone then
    .error (.connectionError "NATS is not connected. Call connect() first.")
  else
    .ok (subject, payload)

/-- `NatsProducer.publish_metadata`: wrap the record in a fresh envelope
(`freshId` is the `uuid.uuid4()` value), serialize its mapping form, and
publish on the producer's configured subject. -/
def NatsProducer.publish_metadata (st : NatsProducerState)
    (record : MetadataRecord) (freshId : Nat) : Except PyError (String × PyValue) :=
  let envelope := Envelope.from_metadata record freshId
  let payload := PyValue.dict envelope.to_dict
  NatsProducer.publish_raw st st.subject payload

/-! ## Validity predicates and sample values -/

/-- Well-formedness of a `MetadataRecord` as Python maintains it: the
timestamp is a constructible timezone-aware datetime and the source path
is a `pathlib`-normalized path (every `Path` object is). -/
def MetadataRecord.Valid (r : MetadataRecord) : Prop :=
  r.timestamp.Valid ∧ r.source_path.Normalized

instance (r : MetadataRecord) : Decidable r.Valid := by
  unfold MetadataRecord.Valid; infer_instance

/-- Concrete record mirroring the repository's `mock_metadata` fixture. -/
def sampleRecord : MetadataRecord :=
  { hostname := "hcro-rpi-001"
    timestamp := ⟨2024, 4, 2, 23, 14, 50, 9919, 0⟩
    source_path := parsePath "dummy_file_path.sc16"
    serial := "3227508"
    organization := "NSF"
    gcs := "hcro"
    group := "alpha"
    frequency := 915000000
    interval := 10
    length := 5
    gain := 20
    sampling_rate := 2048000
    bit_depth := 16
    checksum := "abc" }

/-- Concrete envelope for witness instantiations. -/
def sampleEnvelope : Envelope :=
  { source_path := parsePath "/data/file.sc16"
    payload := .dict [("some", .str "data")]
    message_id := 77885599 }

/-- Concrete producer state with both handles set. -/
def sampleProducerState : NatsProducerState :=
  { subject := "telemetry.metadata", nc := some 1, js := some 1, logs := [] }

/-! ## Theorems

Everything below is proof: the printer/parser inverse lemmas for the
standard-library pairs, the claim theorems C1-C10 over the embedding
above, and their witnesses at concrete inputs. -/

theorem decVal_digChar : ∀ d < 10, decVal? (digChar d) = some d := by decide

theorem hexVal_digChar : ∀ d < 16, hexVal? (digChar d) = some d := by decide

/-- Parsing exactly `w` digits from a padded rendering recovers the number
(and leaves the remainder untouched). -/
theorem parseFixedB_padDigits (dv : Char → Option Nat) (b : Nat)
    (hdv : ∀ d, d < b → dv (digChar d) = some d) :
    ∀ (w acc n : Nat) (rest : List Char), n < b ^ w →
      parseFixedB dv b w acc (padDigits b w n ++ rest) = some (acc * b ^ w + n, rest) := by
  intro w
  induction w with
  | zero =>
    intro acc n rest hn
    have hn0 : n = 0 := by simpa using hn
    subst hn0
    simp [padDigits, parseFixedB]
  | succ w ih =>
    intro acc n rest hn
    have hb : 0 < b := by
      rcases Nat.eq_zero_or_pos b with hb0 | hb0
      · subst hb0; simp at hn
      · exact hb0
    have hdig : n / b ^ w < b := Nat.div_lt_of_lt_mul (by simpa [Nat.pow_succ] using hn)
    have hmod : n % b ^ w < b ^ w := Nat.mod_lt _ (Nat.pow_pos hb)
    simp only [padDigits, List.cons_append, parseFixedB, hdv _ hdig]
    rw [ih _ _ _ hmod]
    have hsplit : b ^ w * (n / b ^ w) + n % b ^ w = n := Nat.div_add_mod n (b ^ w)
    congr 2
    calc (acc * b + n / b ^ w) * b ^ w + n % b ^ w
        = acc * (b * b ^ w) + (b ^ w * (n / b ^ w) + n % b ^ w) := by ring
      _ = acc * b ^ (w + 1) + n := by rw [hsplit, Nat.pow_succ]; ring_nf

/-- Specialization of `parseFixedB_padDigits` to the decimal parser. -/
theorem parseFixed_padDigits (w n : Nat) (rest : List Char) (hn : n < 10 ^ w) :
    parseFixed w (padDigits 10 w n ++ rest) = some (n, rest) := by
  have h := parseFixedB_padDigits decVal? 10 (fun d hd => decVal_digChar d hd) w 0 n rest hn
  simpa [parseFixed] using h

theorem expectChar_cons (c : Char) (cs : List Char) : expectChar c (c :: cs) = some cs := by
  simp [expectChar]

theorem parseDatePart_round (y mo d : Nat) (rest : List Char)
    (hy1 : 1 ≤ y) (hy2 : y ≤ 9999) (hmo1 : 1 ≤ mo) (hmo2 : mo ≤ 12)
    (hd1 : 1 ≤ d) (hd2 : d ≤ daysInMonth y mo) :
    parseDatePart (padDigits 10 4 y ++ '-' ::
      (padDigits 10 2 mo ++ '-' :: (padDigits 10 2 d ++ rest))) = some (y, mo, d, rest) := by
  have hy4 : y < 10 ^ 4 := by omega
  have hmo' : mo < 10 ^ 2 := by omega
  have hd' : d < 10 ^ 2 := by
    have : daysInMonth y mo ≤ 31 := by
      unfold daysInMonth
      split
      · split <;> omega
      · split <;> omega
    omega
  simp only [parseDatePart, parseFixed_padDigits 4 y _ hy4, expectChar_cons,
    parseFixed_padDigits 2 mo _ hmo', parseFixed_padDigits 2 d _ hd']
  simp [hy1, hmo1, hmo2, hd1, hd2]

theorem parseMicroPart_offset (off : Int) (rest : List Char) :
    parseMicroPart (offsetChars off ++ rest) = some (0, offsetChars off ++ rest) := by
  unfold offsetChars
  split <;> simp [parseMicroPart]

theorem parseTimePart_round (h mi s us : Nat) (rest : List Char)
    (hh : h ≤ 23) (hmi : mi ≤ 59) (hs : s ≤ 59) (hus : us ≤ 999999)
    (hrest : parseMicroPart rest = some (0, rest)) :
    parseTimePart (padDigits 10 2 h ++ ':' ::
      (padDigits 10 2 mi ++ ':' :: (padDigits 10 2 s ++
        ((if us = 0 then [] else '.' :: padDigits 10 6 us) ++ rest)))) =
      some (h, mi, s, us, rest) := by
  have hh' : h < 10 ^ 2 := by omega
  have hmi' : mi < 10 ^ 2 := by omega
  have hs' : s < 10 ^ 2 := by omega
  have hus' : us < 10 ^ 6 := by omega
  by_cases h0 : us = 0
  · subst h0
    simp only [parseTimePart, parseFixed_padDigits 2 h _ hh', expectChar_cons,
      parseFixed_padDigits 2 mi _ hmi', parseFixed_padDigits 2 s _ hs',
      if_pos rfl, List.nil_append]
    simp [hh, hmi, hs, hrest]
  · simp only [parseTimePart, parseFixed_padDigits 2 h _ hh', expectChar_cons,
      parseFixed_padDigits 2 mi _ hmi', parseFixed_padDigits 2 s _ hs',
      if_neg h0, List.cons_append, parseMicroPart, parseFixed_padDigits 6 us _ hus']
    simp [hh, hmi, hs]

theorem parseOffsetPart_round (off : Int) (rest : List Char)
    (h1 : -1439 ≤ off) (h2 : off ≤ 1439) :
    parseOffsetPart (offsetChars off ++ rest) = some (off, rest) := by
  unfold offsetChars
  by_cases hneg : off < 0
  · have hb : (-off).toNat / 60 < 10 ^ 2 := by omega
    have hb2 : (-off).toNat % 60 < 10 ^ 2 := by omega
    simp only [if_pos hneg, List.cons_append, List.append_assoc]
    simp only [parseOffsetPart, parseSignPart, parseFixed_padDigits 2 _ _ hb,
      expectChar_cons, parseFixed_padDigits 2 _ _ hb2]
    have hoh : (-off).toNat / 60 ≤ 23 := by omega
    have hom : (-off).toNat % 60 ≤ 59 := by omega
    simp only [if_pos (And.intro hoh hom)]
    congr 2
    omega
  · have hb : off.toNat / 60 < 10 ^ 2 := by omega
    have hb2 : off.toNat % 60 < 10 ^ 2 := by omega
    simp only [if_neg hneg, List.cons_append, List.append_assoc]
    simp only [parseOffsetPart, parseSignPart, parseFixed_padDigits 2 _ _ hb,
      expectChar_cons, parseFixed_padDigits 2 _ _ hb2]
    have hoh : off.toNat / 60 ≤ 23 := by omega
    have hom : off.toNat % 60 ≤ 59 := by omega
    simp only [if_pos (And.intro hoh hom)]
    congr 2
    omega

/-- Round trip of the standard-library pair: `fromisoformat` inverts
`isoformat` on every valid aware datetime. -/
theorem fromisoformat_isoformat (t : PyDateTime) (h : t.Valid) :
    PyDateTime.fromisoformat t.isoformat = some t := by
  obtain ⟨hy1, hy2, hmo1, hmo2, hd1, hd2, hh, hmi, hs, hus, ho1, ho2⟩ := h
  have hoff : parseOffsetPart (offsetChars t.tzOffsetMinutes) = some (t.tzOffsetMinutes, []) := by
    have h0 := parseOffsetPart_round t.tzOffsetMinutes [] ho1 ho2
    simpa using h0
  have hmicro : parseMicroPart (offsetChars t.tzOffsetMinutes) =
      some (0, offsetChars t.tzOffsetMinutes) := by
    simpa using parseMicroPart_offset t.tzOffsetMinutes []
  show fromisoChars t.isoformatChars = some t
  unfold PyDateTime.isoformatChars fromisoChars
  rw [parseDatePart_round t.year t.month t.day _ hy1 hy2 hmo1 hmo2 hd1 hd2]
  simp only [expectChar_cons,
    parseTimePart_round t.hour t.minute t.second t.microsecond _ hh hmi hs hus hmicro, hoff]
  simp

example :
    PyDateTime.isoformat ⟨2024, 4, 2, 23, 14, 50, 9919, 0⟩ =
      "2024-04-02T23:14:50.009919+00:00" := by decide

example :
    PyDateTime.fromisoformat "2024-12-31T05:00:07-05:30" =
      some ⟨2024, 12, 31, 5, 0, 7, 0, -330⟩ := by decide

theorem splitSlash_no_slash (cs : List Char) (h : '/' ∉ cs) : splitSlash cs = [cs] := by
  induction cs with
  | nil => rfl
  | cons c cs ih =>
    have hc : c ≠ '/' := fun hc => h (by simp [hc])
    have hcs : '/' ∉ cs := fun hm => h (by simp [hm])
    simp only [splitSlash, if_neg hc, ih hcs]

theorem mem_splitSlash_no_slash (cs : List Char) :
    ∀ p ∈ splitSlash cs, '/' ∉ p := by
  induction cs with
  | nil =>
    intro p hp
    simp [splitSlash] at hp
    simp [hp]
  | cons c cs ih =>
    intro p hp
    by_cases hc : c = '/'
    · rw [splitSlash, if_pos hc] at hp
      rcases List.mem_cons.mp hp with h | h
      · simp [h]
      · exact ih p h
    · rw [splitSlash, if_neg hc] at hp
      rcases hsplit : splitSlash cs with _ | ⟨q, ps⟩
      · rw [hsplit] at hp
        simp at hp
        subst hp
        simp only [List.mem_singleton]
        exact fun h1 => hc h1.symm
      · rw [hsplit] at hp
        rcases List.mem_cons.mp hp with h | h
        · subst h
          intro hm
          rcases List.mem_cons.mp hm with h1 | h1
          · exact hc h1.symm
          · exact ih q (by simp [hsplit]) h1
        · exact ih p (by simp [hsplit, h])

theorem splitSlash_append_slash (xs rest : List Char) (h : '/' ∉ xs) :
    splitSlash (xs ++ '/' :: rest) = xs :: splitSlash rest := by
  induction xs with
  | nil => simp [splitSlash]
  | cons c cs ih =>
    have hc : c ≠ '/' := fun hc => h (by simp [hc])
    have hcs : '/' ∉ cs := fun hm => h (by simp [hm])
    simp only [List.cons_append, splitSlash, if_neg hc, List.append_eq, ih hcs]

theorem splitSlash_joinSlash :
    ∀ ps : List (List Char), ps ≠ [] → (∀ p ∈ ps, '/' ∉ p) →
      splitSlash (joinSlash ps) = ps := by
  intro ps
  induction ps with
  | nil => intro h; exact absurd rfl h
  | cons q ps ih =>
    intro _ hmem
    rcases ps with _ | ⟨r, ps'⟩
    · exact splitSlash_no_slash q (hmem q (by simp))
    · rw [show joinSlash (q :: r :: ps') = q ++ '/' :: joinSlash (r :: ps') from rfl]
      rw [splitSlash_append_slash _ _ (hmem q (by simp))]
      rw [ih (by simp) (fun p hp => hmem p (List.mem_cons_of_mem _ hp))]

theorem parsePath_normalized (s : String) : (parsePath s).Normalized := by
  intro q hq
  simp only [parsePath, List.mem_filter] at hq
  obtain ⟨hmem, hreal⟩ := hq
  have := mem_splitSlash_no_slash s.data q hmem
  simp only [isRealPart, decide_eq_true_eq] at hreal
  exact ⟨hreal.1, hreal.2, this⟩

theorem joinSlash_head (q : List Char) (qs : List (List Char)) (hq : q ≠ []) :
    (joinSlash (q :: qs)).head? = q.head? := by
  rcases qs with _ | ⟨r, ps⟩
  · rfl
  · rcases q with _ | ⟨c, q'⟩
    · exact absurd rfl hq
    · rfl

/-- Round trip of the `pathlib` pair: re-parsing `str(path)` gives back
the path, for every normalized path. -/
theorem parsePath_str (p : PyPath) (h : p.Normalized) : parsePath p.str = p := by
  obtain ⟨abs, parts⟩ := p
  rcases hps : parts with _ | ⟨q, qs⟩
  · subst hps
    cases abs <;> simp [PyPath.str, PyPath.strChars, parsePath, splitSlash, isRealPart]
  · subst hps
    have hmem : ∀ r ∈ q :: qs, '/' ∉ r := fun r hr => (h r hr).2.2
    have hq : q ≠ [] := (h q (by simp)).1
    have hkeep : ∀ r ∈ q :: qs, isRealPart r = true := by
      intro r hr
      have hrr := h r hr
      simp [isRealPart, hrr.1, hrr.2.1]
    have hsplit : splitSlash (joinSlash (q :: qs)) = q :: qs :=
      splitSlash_joinSlash _ (by simp) hmem
    have hfilter : (q :: qs).filter isRealPart = q :: qs :=
      List.filter_eq_self.mpr hkeep
    have hnil : isRealPart [] = false := rfl
    cases abs with
    | true =>
      have hstr : PyPath.str ⟨true, q :: qs⟩ = String.mk ('/' :: joinSlash (q :: qs)) := by
        simp [PyPath.str, PyPath.strChars]
      rw [hstr]
      have h1 : splitSlash ('/' :: joinSlash (q :: qs)) = [] :: (q :: qs) := by
        simp [splitSlash, hsplit]
      simp [parsePath, h1, List.filter_cons, hnil, hfilter]
    | false =>
      rcases hqe : q with _ | ⟨c, q'⟩
      · exact absurd hqe hq
      · subst hqe
        have hc : c ≠ '/' := fun hcc => hmem (c :: q') (by simp) (by simp [hcc])
        have hstr : PyPath.str ⟨false, (c :: q') :: qs⟩ =
            String.mk (joinSlash ((c :: q') :: qs)) := by
          simp [PyPath.str, PyPath.strChars]
        rw [hstr]
        have hhead : (joinSlash ((c :: q') :: qs)).head? = some c :=
          joinSlash_head (c :: q') qs (by simp)
        simp [parsePath, hsplit, hfilter, hhead, hc]

theorem digChar_ne_hyphen : ∀ d < 16, digChar d ≠ '-' := by decide

theorem mem_padDigits_digit (b : Nat) (hb : b ≤ 16) :
    ∀ (w n : Nat), n < b ^ w → ∀ c ∈ padDigits b w n, ∃ d, d < 16 ∧ c = digChar d := by
  intro w
  induction w with
  | zero => intro n _ c hc; simp [padDigits] at hc
  | succ w ih =>
    intro n hn c hc
    have hbpos : 0 < b := by
      rcases Nat.eq_zero_or_pos b with h0 | h0
      · subst h0; simp at hn
      · exact h0
    have hdig : n / b ^ w < b := Nat.div_lt_of_lt_mul (by simpa [Nat.pow_succ] using hn)
    have hmod : n % b ^ w < b ^ w := Nat.mod_lt _ (Nat.pow_pos hbpos)
    rw [padDigits] at hc
    rcases List.mem_cons.mp hc with h | h
    · exact ⟨n / b ^ w, by omega, h⟩
    · exact ih (n % b ^ w) hmod c h

theorem filter_no_hyphen (cs : List Char) (h : ∀ c ∈ cs, c ≠ '-') :
    cs.filter (fun c => c != '-') = cs := by
  apply List.filter_eq_self.mpr
  intro c hc
  simpa using h c hc

/-- Round trip of the `uuid` pair: the constructor inverts `str` on every
128-bit value. -/
theorem uuidFromString_uuidStr (n : Nat) (h : n < 2 ^ 128) :
    uuidFromString (uuidStr n) = some n := by
  have h16 : n < 16 ^ 32 := by
    have : (16 : Nat) ^ 32 = 2 ^ 128 := by norm_num
    omega
  have hmem : ∀ c ∈ padDigits 16 32 n, c ≠ '-' := by
    intro c hc
    obtain ⟨d, hd, rfl⟩ := mem_padDigits_digit 16 (by omega) 32 n h16 c hc
    exact digChar_ne_hyphen d hd
  show uuidFromChars (uuidStrChars n) = some n
  unfold uuidFromChars uuidStrChars
  set h32 := padDigits 16 32 n with hdef
  have hsub : ∀ xs : List Char, (∀ c ∈ xs, c ∈ h32) → xs.filter (fun c => c != '-') = xs := by
    intro xs hxs
    exact filter_no_hyphen xs (fun c hc => hmem c (hxs c hc))
  have hf1 : (h32.take 8).filter (fun c => c != '-') = h32.take 8 :=
    hsub _ (fun c hc => List.take_subset _ _ hc)
  have hf2 : ((h32.drop 8).take 4).filter (fun c => c != '-') = (h32.drop 8).take 4 :=
    hsub _ (fun c hc => List.drop_subset _ _ (List.take_subset _ _ hc))
  have hf3 : ((h32.drop 12).take 4).filter (fun c => c != '-') = (h32.drop 12).take 4 :=
    hsub _ (fun c hc => List.drop_subset _ _ (List.take_subset _ _ hc))
  have hf4 : ((h32.drop 16).take 4).filter (fun c => c != '-') = (h32.drop 16).take 4 :=
    hsub _ (fun c hc => List.drop_subset _ _ (List.take_subset _ _ hc))
  have hf5 : (h32.drop 20).filter (fun c => c != '-') = h32.drop 20 :=
    hsub _ (fun c hc => List.drop_subset _ _ hc)
  have e1 : (h32.drop 16).take 4 ++ h32.drop 20 = h32.drop 16 := by
    have hd : (h32.drop 16).drop 4 = h32.drop 20 := by
      rw [List.drop_drop]
    rw [← hd, List.take_append_drop]
  have e2 : (h32.drop 12).take 4 ++ h32.drop 16 = h32.drop 12 := by
    have hd : (h32.drop 12).drop 4 = h32.drop 16 := by
      rw [List.drop_drop]
    rw [← hd, List.take_append_drop]
  have e3 : (h32.drop 8).take 4 ++ h32.drop 12 = h32.drop 8 := by
    have hd : (h32.drop 8).drop 4 = h32.drop 12 := by
      rw [List.drop_drop]
    rw [← hd, List.take_append_drop]
  have e4 : h32.take 8 ++ h32.drop 8 = h32 := List.take_append_drop _ _
  have hfilter :
      (h32.take 8 ++ '-' ::
        ((h32.drop 8).take 4 ++ '-' ::
        ((h32.drop 12).take 4 ++ '-' ::
        ((h32.drop 16).take 4 ++ '-' ::
        (h32.drop 20))))).filter (fun c => c != '-') = h32 := by
    simp only [List.filter_append, List.filter_cons]
    norm_num
    rw [hf1, hf2, hf3, hf4, hf5, e1, e2, e3, e4]
  rw [hfilter]
  have hparse := parseFixedB_padDigits hexVal? 16 (fun d hd => hexVal_digChar d hd) 32 0 n [] h16
  rw [List.append_nil] at hparse
  rw [hdef, hparse]
  norm_num

set_option maxRecDepth 4096 in
example : get_checksum [] = "d41d8cd98f00b204e9800998ecf8427e" := by decide

set_option maxRecDepth 8192 in
example : get_checksum [72, 101, 108, 108, 111, 44, 32, 116, 104, 105, 115, 32, 105, 115, 32, 97, 32, 116, 101, 115, 116, 32, 111, 102, 32, 116, 104, 101, 32, 99, 104, 101, 99, 107, 115, 117, 109, 32, 102, 117, 110, 99, 116, 105, 111, 110, 115, 46] = "2ea87543227119431029c424e10602e4" := by decide

set_option maxRecDepth 8192 in
example : get_checksum (List.replicate 56 97) = "3b0c8ac703f828b04c6c197006d17218" := by decide

theorem readChunksGo_absorbed :
    ∀ (fuel : Nat) (hasher : Md5Hasher) (bs : List Nat), bs.length ≤ fuel →
      (readChunksGo fuel hasher bs).absorbed = hasher.absorbed ++ bs := by
  intro fuel
  induction fuel with
  | zero =>
    intro hasher bs hlen
    cases bs with
    | nil => simp [readChunksGo]
    | cons x xs => simp at hlen
  | succ fuel ih =>
    intro hasher bs hlen
    cases bs with
    | nil => simp [readChunksGo]
    | cons x xs =>
      have hstep : readChunksGo (fuel + 1) hasher (x :: xs) =
          readChunksGo fuel (hasher.update ((x :: xs).take 8192))
            ((x :: xs).drop 8192) := rfl
      rw [hstep, ih _ _ (by simp only [List.length_drop, List.length_cons] at *; omega)]
      simp [Md5Hasher.update]

/-- C5: `get_checksum` is deterministic, and `get_file_checksum` — which
folds the file's bytes into the hasher in chunks of at most 8192 bytes —
returns the same digest as `get_checksum` applied to the file's full
contents. -/
theorem claim_c5_file_checksum (b : List Nat) :
    get_checksum b = get_checksum b ∧ get_file_checksum b = get_checksum b := by
  refine ⟨rfl, ?_⟩
  unfold get_file_checksum get_checksum readChunksLoop Md5Hasher.hexdigest
  rw [readChunksGo_absorbed b.length ⟨[]⟩ b (le_refl _)]
  simp [Md5Hasher.update]

/-- C3: `validate_checksum` fails with `ChecksumMismatchError` exactly
when the calculated digest differs from the stored one; the error message
then contains both digests verbatim, and on a match the call returns
silently. -/
theorem claim_c3_validate_checksum (r : MetadataRecord) (d : String) :
    ((∃ m, r.validate_checksum d = .error (.checksumMismatch m) ∧
        (∃ a b, m = a ++ (r.checksum ++ b)) ∧ (∃ a b, m = a ++ (d ++ b))) ↔
      d ≠ r.checksum) ∧
    (d = r.checksum → r.validate_checksum d = .ok ()) := by
  unfold MetadataRecord.validate_checksum
  by_cases h : r.checksum = d
  · rw [if_neg (by simp [h])]
    constructor
    · constructor
      · rintro ⟨m, hm, _⟩
        cases hm
      · intro hd
        exact absurd h.symm hd
    · intro _
      rfl
  · rw [if_pos h]
    constructor
    · constructor
      · intro _
        exact fun hd => h hd.symm
      · intro _
        refine ⟨_, rfl, ⟨"Checksum mismatch for file. Expected: '",
          "', Got: '" ++ d ++ "'", ?_⟩,
          ⟨"Checksum mismatch for file. Expected: '" ++ r.checksum ++ "', Got: '",
          "'", ?_⟩⟩
        · simp [String.append_assoc]
        · simp [String.append_assoc]
    · intro hd
      exact absurd hd.symm h

/-- C3 witness: at the repository's own fixture values, a matching digest
returns silently and a mismatching digest yields the error carrying both
digests. -/
theorem claim_c3_witness :
    sampleRecord.validate_checksum "abc" = .ok () ∧
    (∃ m, sampleRecord.validate_checksum "ffffffffffffffff" =
        .error (.checksumMismatch m) ∧
      (∃ a b, m = a ++ (sampleRecord.checksum ++ b)) ∧
      (∃ a b, m = a ++ ("ffffffffffffffff" ++ b))) :=
  ⟨(claim_c3_validate_checksum sampleRecord "abc").2 rfl,
   ((claim_c3_validate_checksum sampleRecord "ffffffffffffffff").1).mpr (by decide)⟩

/-- C2 counterexample: a fetch-time transport failure that is not a
timeout is neither caught nor logged by `fetch_one` — it propagates as the
same exception with no log line, instead of degrading to the no-message
outcome the claim asserts. -/
theorem claim_c2_counterexample :
    fetch_one (.transportError "nats: connection closed") =
      (.error "nats: connection closed", []) := rfl

/-- C2 (amended): a pull that times out with no message available returns
the none outcome, and so does an empty fetched batch; any other
transport-level fetch failure propagates unmodified to the caller, with
nothing logged, and a nonempty batch yields its first message with that
message's ack callback. -/
theorem claim_c2_fetch_one (outcome : FetchOutcome) :
    (outcome = .timeout ∨ outcome = .msgs [] → fetch_one outcome = (.ok none, [])) ∧
    (∀ e, outcome = .transportError e → fetch_one outcome = (.error e, [])) ∧
    (∀ m batch, outcome = .msgs (m :: batch) →
      fetch_one outcome = (.ok (some ⟨m.data, .msgAck m.ackId⟩), [])) := by
  refine ⟨?_, ?_, ?_⟩
  · rintro (rfl | rfl) <;> rfl
  · rintro e rfl
    rfl
  · rintro m batch rfl
    rfl

/-- C2 witness: the amended behaviour at concrete outcomes. -/
theorem claim_c2_witness :
    fetch_one .timeout = (.ok none, []) ∧
    fetch_one (.transportError "nats: unexpected EOF") =
      (.error "nats: unexpected EOF", []) :=
  ⟨(claim_c2_fetch_one .timeout).1 (Or.inl rfl),
   (claim_c2_fetch_one (.transportError "nats: unexpected EOF")).2.1 _ rfl⟩

/-- C9: with no connection handle set, a failing transport connect leaves
the consumer's and producer's handles unset and propagates the same
exception to the caller, for both client classes. -/
theorem claim_c9_connect_failure (cst : NatsConsumerState)
    (pst : NatsProducerState) (e : String)
    (hc : cst.nc = none) (hp1 : pst.nc = none) (hp2 : pst.js = none) :
    ((NatsConsumer.connect cst (.error e)).1.nc = none ∧
     (NatsConsumer.connect cst (.error e)).2 = some e) ∧
    ((NatsProducer.connect pst (.error e)).1.nc = none ∧
     (NatsProducer.connect pst (.error e)).1.js = none ∧
     (NatsProducer.connect pst (.error e)).2 = some e) := by
  simp [NatsConsumer.connect, NatsProducer.connect, hc, hp1, hp2]

/-- C9 witness: the failure propagation at concrete disconnected states. -/
theorem claim_c9_witness :
    ((NatsConsumer.connect ⟨none, []⟩ (.error "refused")).1.nc = none ∧
     (NatsConsumer.connect ⟨none, []⟩ (.error "refused")).2 = some "refused") ∧
    ((NatsProducer.connect ⟨"s", none, none, []⟩ (.error "refused")).1.nc = none ∧
     (NatsProducer.connect ⟨"s", none, none, []⟩ (.error "refused")).1.js = none ∧
     (NatsProducer.connect ⟨"s", none, none, []⟩ (.error "refused")).2 = some "refused") :=
  claim_c9_connect_failure ⟨none, []⟩ ⟨"s", none, none, []⟩ "refused" rfl rfl rfl

/-- C10: `NatsProducer.close` leaves both handle fields set, so a
subsequent `publish_raw` on the closed producer still passes the
connection guard and publishes instead of raising `ConnectionError`. -/
theorem claim_c10_close_keeps_handles (st : NatsProducerState) (c j : Nat)
    (s : String) (p : PyValue) (hnc : st.nc = some c) (hjs : st.js = some j) :
    (NatsProducer.close st).nc = some c ∧ (NatsProducer.close st).js = some j ∧
    NatsProducer.publish_raw (NatsProducer.close st) s p = .ok (s, p) := by
  simp [NatsProducer.close, NatsProducer.publish_raw, hnc, hjs]

/-- C10 witness: closing the sample connected producer keeps its handles
and a publish on it still succeeds. -/
theorem claim_c10_witness :
    (NatsProducer.close sampleProducerState).nc = some 1 ∧
    (NatsProducer.close sampleProducerState).js = some 1 ∧
    NatsProducer.publish_raw (NatsProducer.close sampleProducerState) "subj" (.str "x") =
      .ok ("subj", .str "x") :=
  claim_c10_close_keeps_handles sampleProducerState 1 1 "subj" (.str "x") rfl rfl

theorem adapter_never_raises (subject : String)
    (callback : ReceivedMessage → Except String Unit) (m : NatsMsgModel) :
    ∃ evs, message_handler_adapter subject callback m = .ok evs ∧
      DispatchEvent.invoked m.data ∈ evs := by
  unfold message_handler_adapter
  rcases callback ⟨m.data, .noOp⟩ with e | u
  · exact ⟨_, rfl, by simp⟩
  · exact ⟨_, rfl, by simp⟩

/-- C8: the dispatch adapter of `core_subscribe` catches and logs every
exception a caller-supplied handler raises and never re-raises — on a
raising handler the adapter returns normally with exactly the invocation
event followed by the logged per-message error line — and a handler
failure on one message neither terminates the subscription nor prevents
the handler from being invoked on any later message on the subject. -/
theorem claim_c8_handler_isolation (subject : String)
    (callback : ReceivedMessage → Except String Unit) (msgs : List NatsMsgModel) :
    (∀ m, ∃ evs, message_handler_adapter subject callback m = .ok evs) ∧
    (∀ m e, callback ⟨m.data, .noOp⟩ = .error e →
      message_handler_adapter subject callback m =
        .ok [.invoked m.data,
             .handlerErrorLogged subject
               ("Error in callback for subject '" ++ subject ++ "': " ++ e)]) ∧
    (∀ m ∈ msgs, DispatchEvent.invoked m.data ∈ deliverAll subject callback msgs) := by
  refine ⟨?_, ?_, ?_⟩
  · intro m
    obtain ⟨evs, hok, _⟩ := adapter_never_raises subject callback m
    exact ⟨evs, hok⟩
  · intro m e hraise
    unfold message_handler_adapter
    rw [hraise]
  · induction msgs with
    | nil => simp
    | cons m ms ih =>
      intro m' hm'
      obtain ⟨evs, hok, hinv⟩ := adapter_never_raises subject callback m
      rw [deliverAll, hok]
      rcases List.mem_cons.mp hm' with rfl | hmem
      · exact List.mem_append_left _ hinv
      · exact List.mem_append_right _ (ih m' hmem)

/-- C8 witness: two sequential deliveries where the handler raises on the
first message and completes on the second; on the raising message the
adapter returns normally with the invocation event and the logged error
line, and the handler is still invoked on the second message. -/
theorem claim_c8_witness :
    message_handler_adapter "subj"
        (fun m => if m.data = [0] then .error "boom" else .ok ()) ⟨[0], 5⟩ =
      .ok [.invoked [0],
           .handlerErrorLogged "subj" "Error in callback for subject 'subj': boom"] ∧
    DispatchEvent.invoked [1] ∈ deliverAll "subj"
      (fun m => if m.data = [0] then .error "boom" else .ok ())
      [⟨[0], 5⟩, ⟨[1], 6⟩] :=
  ⟨(claim_c8_handler_isolation "subj" _ [⟨[0], 5⟩, ⟨[1], 6⟩]).2.1 ⟨[0], 5⟩ "boom" rfl,
   (claim_c8_handler_isolation "subj" _ [⟨[0], 5⟩, ⟨[1], 6⟩]).2.2 ⟨[1], 6⟩ (by simp)⟩

theorem envelope_from_to_dict (e : Envelope) (hsp : e.source_path.Normalized)
    (hid : e.message_id < 2 ^ 128) :
    Envelope.from_dict e.to_dict = .ok e := by
  have hpath := parsePath_str e.source_path hsp
  have huuid := uuidFromString_uuidStr e.message_id hid
  unfold Envelope.from_dict envCore Envelope.to_dict
  simp [dictGet?, huuid, hpath]

/-- C7: re-parsing an envelope's mapping form gives back the envelope:
the path survives the string round trip, the payload is passed through
unchanged, and the UUID survives the string round trip.  (The hypotheses
state the invariants every Python `Envelope` carries: its `Path` is
normalized by construction and its `UUID` is a 128-bit value.) -/
theorem claim_c7_envelope_round_trip (e : Envelope)
    (hsp : e.source_path.Normalized) (hid : e.message_id < 2 ^ 128) :
    Envelope.from_dict e.to_dict = .ok e :=
  envelope_from_to_dict e hsp hid

/-- C7 witness: the round trip at a concrete envelope. -/
theorem claim_c7_witness : Envelope.from_dict sampleEnvelope.to_dict = .ok sampleEnvelope :=
  claim_c7_envelope_round_trip sampleEnvelope (by decide) (by decide)

/-- C6: on a connected producer, `publish_metadata` publishes on the
producer's configured subject (not a caller-supplied one) exactly the
serialized mapping of the fresh envelope `Envelope.from_metadata` builds
from the record; decoding that payload and applying `Envelope.from_dict`
yields an envelope whose payload is the record's mapping form and whose
source path is the record's source path (the fresh `uuid.uuid4()` value
is the `freshId` input, and the JSON byte serialization of the mapping is
modelled at the JSON-value level). -/
theorem claim_c6_publish_metadata (st : NatsProducerState) (r : MetadataRecord)
    (freshId j : Nat) (hjs : st.js = some j)
    (hsp : r.source_path.Normalized) (hid : freshId < 2 ^ 128) :
    NatsProducer.publish_metadata st r freshId =
      .ok (st.subject, .dict (Envelope.from_metadata r freshId).to_dict) ∧
    Envelope.from_dict (Envelope.from_metadata r freshId).to_dict =
      .ok ⟨r.source_path, .dict r.to_dict, freshId⟩ := by
  constructor
  · simp [NatsProducer.publish_metadata, NatsProducer.publish_raw, hjs]
  · exact envelope_from_to_dict ⟨r.source_path, .dict r.to_dict, freshId⟩ hsp hid

/-- C6 witness: publishing the sample record on the sample connected
producer. -/
theorem claim_c6_witness :
    NatsProducer.publish_metadata sampleProducerState sampleRecord 42 =
      .ok ("telemetry.metadata",
        .dict (Envelope.from_metadata sampleRecord 42).to_dict) ∧
    Envelope.from_dict (Envelope.from_metadata sampleRecord 42).to_dict =
      .ok ⟨sampleRecord.source_path, .dict sampleRecord.to_dict, 42⟩ :=
  claim_c6_publish_metadata sampleProducerState sampleRecord 42 1 rfl
    (by decide) (by decide)

theorem mr_from_to_dict (r : MetadataRecord) (hts : r.timestamp.Valid)
    (hsp : r.source_path.Normalized) :
    MetadataRecord.from_dict r.to_dict = .ok r := by
  have hiso := fromisoformat_isoformat r.timestamp hts
  have hpath := parsePath_str r.source_path hsp
  unfold MetadataRecord.from_dict mrCore tsStep spStep ctorStep
  simp [MetadataRecord.to_dict, dictGet?, hiso, hpath, argStr, argInt, argFloat,
    mrFieldNames]

/-- C1: for every valid record (well-formed fields, timezone-aware
timestamp), `from_dict (to_dict r)` returns `r` itself, field for field —
in particular the timestamp round-trips with its timezone offset and
sub-second precision, and the source path round-trips through its string
form. -/
theorem claim_c1_metadata_round_trip (r : MetadataRecord) (h : r.Valid) :
    MetadataRecord.from_dict r.to_dict = .ok r :=
  mr_from_to_dict r h.1 h.2

/-- C1 witness: the round trip at the repository's fixture record, whose
timestamp carries microseconds and a UTC offset. -/
theorem claim_c1_witness :
    sampleRecord.Valid ∧ MetadataRecord.from_dict sampleRecord.to_dict = .ok sampleRecord :=
  ⟨by decide, claim_c1_metadata_round_trip sampleRecord (by decide)⟩

theorem argStr_error_caught (d : PyDict) (k : String) (e : LowErr)
    (h : argStr d k = .error e) : e.isCaught = true := by
  unfold argStr at h
  split at h <;> simp_all [LowErr.isCaught]
  all_goals (subst h; rfl)

theorem argInt_error_caught (d : PyDict) (k : String) (e : LowErr)
    (h : argInt d k = .error e) : e.isCaught = true := by
  unfold argInt at h
  split at h <;> simp_all [LowErr.isCaught]
  all_goals (subst h; rfl)

theorem argFloat_error_caught (d : PyDict) (k : String) (e : LowErr)
    (h : argFloat d k = .error e) : e.isCaught = true := by
  unfold argFloat at h
  split at h <;> simp_all [LowErr.isCaught]
  all_goals (subst h; rfl)

theorem tsStep_error_caught (d : PyDict) (e : LowErr)
    (h : tsStep d = .error e) : e.isCaught = true := by
  unfold tsStep at h
  split at h <;> try split at h
  all_goals simp_all [LowErr.isCaught]
  all_goals (subst h; rfl)

theorem spStep_error_caught (d : PyDict) (e : LowErr)
    (h : spStep d = .error e) : e.isCaught = true := by
  unfold spStep at h
  split at h <;> simp_all [LowErr.isCaught]
  all_goals (subst h; rfl)

theorem ctorStep_error_caught (d : PyDict) (ts : PyDateTime) (sp : PyPath)
    (e : LowErr) (h : ctorStep d ts sp = .error e) : e.isCaught = true := by
  unfold ctorStep at h
  repeat' split at h
  all_goals try injection h
  all_goals subst_vars
  all_goals
    first
      | rfl
      | exact argStr_error_caught _ _ _ (by assumption)
      | exact argInt_error_caught _ _ _ (by assumption)
      | exact argFloat_error_caught _ _ _ (by assumption)

theorem mrCore_error_caught (d : PyDict) (e : LowErr)
    (h : mrCore d = .error e) : e.isCaught = true := by
  unfold mrCore at h
  split at h
  · injection h with h2
    subst h2
    exact tsStep_error_caught _ _ (by assumption)
  · split at h
    · injection h with h2
      subst h2
      exact spStep_error_caught _ _ (by assumption)
    · exact ctorStep_error_caught _ _ _ _ h

theorem argStr_ok_isSome (d : PyDict) (k : String) (v : String)
    (h : argStr d k = .ok v) : (dictGet? d k).isSome := by
  unfold argStr at h
  split at h <;> simp_all

theorem argInt_ok_isSome (d : PyDict) (k : String) (v : Int)
    (h : argInt d k = .ok v) : (dictGet? d k).isSome := by
  unfold argInt at h
  split at h <;> simp_all

theorem argFloat_ok_isSome (d : PyDict) (k : String) (v : Rat)
    (h : argFloat d k = .ok v) : (dictGet? d k).isSome := by
  unfold argFloat at h
  split at h <;> simp_all

theorem tsStep_ok_isSome (d : PyDict) (v : PyDateTime)
    (h : tsStep d = .ok v) : (dictGet? d "timestamp").isSome := by
  unfold tsStep at h
  split at h <;> try split at h
  all_goals simp_all

theorem spStep_ok_isSome (d : PyDict) (v : PyPath)
    (h : spStep d = .ok v) : (dictGet? d "source_path").isSome := by
  unfold spStep at h
  split at h <;> simp_all

theorem mrCore_ok_keys (d : PyDict) (r : MetadataRecord) (h : mrCore d = .ok r) :
    ∀ k ∈ mrFieldNames, (dictGet? d k).isSome := by
  unfold mrCore at h
  split at h
  · exact Except.noConfusion h
  · split at h
    · exact Except.noConfusion h
    · unfold ctorStep at h
      repeat' split at h
      all_goals try exact Except.noConfusion h
      intro k hk
      simp only [mrFieldNames, List.mem_cons, List.not_mem_nil, or_false] at hk
      rcases hk with rfl | rfl | rfl | rfl | rfl | rfl | rfl | rfl | rfl | rfl | rfl | rfl | rfl | rfl
      all_goals
        first
          | exact tsStep_ok_isSome _ _ (by assumption)
          | exact spStep_ok_isSome _ _ (by assumption)
          | exact argStr_ok_isSome _ _ _ (by assumption)
          | exact argInt_ok_isSome _ _ _ (by assumption)
          | exact argFloat_ok_isSome _ _ _ (by assumption)

/-- C4: a mapping missing any required field, or carrying a malformed
timestamp string (for records) or malformed message-id string (for
envelopes), makes `MetadataRecord.from_dict` fail with
`MetadataRecordParsingError` and `Envelope.from_dict` fail with
`EnvelopeParsingError` — never an unqualified `KeyError`/`TypeError`/
`ValueError` — and in every case the underlying low-level exception is
preserved as the error's cause (every string is a valid `Path`, so no
malformed-path-string case exists). -/
theorem claim_c4_parsing_errors :
    (∀ (d : PyDict) (k : String), k ∈ mrFieldNames → dictGet? d k = none →
      ∃ low, low.isCaught = true ∧ MetadataRecord.from_dict d =
        .error (.metadataRecordParsing
          ("Invalid metadata payload structure: " ++ low.msg) low)) ∧
    (∀ (d : PyDict) (s : String), dictGet? d "timestamp" = some (.str s) →
      PyDateTime.fromisoformat s = none →
      ∃ low, MetadataRecord.from_dict d =
        .error (.metadataRecordParsing
          ("Invalid metadata payload structure: " ++ low.msg) low)) ∧
    (∀ (d : PyDict) (k : String), k ∈ ["source_path", "payload", "message_id"] →
      dictGet? d k = none →
      ∃ low, low.isCaught = true ∧ Envelope.from_dict d =
        .error (.envelopeParsing ("Invalid envelope structure: " ++ low.msg) low)) ∧
    (∀ (d : PyDict) (s : String), dictGet? d "message_id" = some (.str s) →
      uuidFromString s = none →
      ∃ low, Envelope.from_dict d =
        .error (.envelopeParsing ("Invalid envelope structure: " ++ low.msg) low)) := by
  refine ⟨?_, ?_, ?_, ?_⟩
  · intro d k hk hnone
    rcases hc : mrCore d with e | r
    · refine ⟨e, mrCore_error_caught d e hc, ?_⟩
      unfold MetadataRecord.from_dict
      rw [hc]
      simp [mrCore_error_caught d e hc]
    · exfalso
      have := mrCore_ok_keys d r hc k hk
      rw [hnone] at this
      simp at this
  · intro d s hget hbad
    have hts : tsStep d =
        .error (.valueError ("Invalid isoformat string: '" ++ s ++ "'")) := by
      unfold tsStep
      rw [hget]
      simp [hbad]
    refine ⟨.valueError ("Invalid isoformat string: '" ++ s ++ "'"), ?_⟩
    unfold MetadataRecord.from_dict mrCore
    rw [hts]
    simp [LowErr.isCaught, LowErr.msg]
  · intro d k hk hnone
    simp only [List.mem_cons, List.not_mem_nil, or_false] at hk
    rcases hk with rfl | rfl | rfl
    · refine ⟨.keyError "source_path", rfl, ?_⟩
      unfold Envelope.from_dict envCore
      rw [hnone]
      simp [LowErr.isCaught, LowErr.msg]
    · rcases hsp : dictGet? d "source_path" with _ | v
      · refine ⟨.keyError "source_path", rfl, ?_⟩
        unfold Envelope.from_dict envCore
        rw [hsp]
        simp [LowErr.isCaught, LowErr.msg]
      · rcases v with s | n | q | entries
        · refine ⟨.keyError "payload", rfl, ?_⟩
          unfold Envelope.from_dict envCore
          rw [hsp, hnone]
          simp [LowErr.isCaught, LowErr.msg]
        all_goals
          refine ⟨.typeError "argument should be a str or an os.PathLike object", rfl, ?_⟩
        all_goals
          unfold Envelope.from_dict envCore
        all_goals
          rw [hsp]
        all_goals
          simp [LowErr.isCaught, LowErr.msg]
    · rcases hsp : dictGet? d "source_path" with _ | v
      · refine ⟨.keyError "source_path", rfl, ?_⟩
        unfold Envelope.from_dict envCore
        rw [hsp]
        simp [LowErr.isCaught, LowErr.msg]
      · rcases v with s | n | q | entries
        · rcases hpl : dictGet? d "payload" with _ | pl
          · refine ⟨.keyError "payload", rfl, ?_⟩
            unfold Envelope.from_dict envCore
            rw [hsp, hpl]
            simp [LowErr.isCaught, LowErr.msg]
          · refine ⟨.keyError "message_id", rfl, ?_⟩
            unfold Envelope.from_dict envCore
            rw [hsp, hpl, hnone]
            simp [LowErr.isCaught, LowErr.msg]
        all_goals
          refine ⟨.typeError "argument should be a str or an os.PathLike object", rfl, ?_⟩
        all_goals
          unfold Envelope.from_dict envCore
        all_goals
          rw [hsp]
        all_goals
          simp [LowErr.isCaught, LowErr.msg]
  · intro d s hget hbad
    rcases hsp : dictGet? d "source_path" with _ | v
    · refine ⟨.keyError "source_path", ?_⟩
      unfold Envelope.from_dict envCore
      rw [hsp]
      simp [LowErr.isCaught, LowErr.msg]
    · rcases v with s2 | n | q | entries
      · rcases hpl : dictGet? d "payload" with _ | pl
        · refine ⟨.keyError "payload", ?_⟩
          unfold Envelope.from_dict envCore
          rw [hsp, hpl]
          simp [LowErr.isCaught, LowErr.msg]
        · refine ⟨.valueError "badly formed hexadecimal UUID string", ?_⟩
          unfold Envelope.from_dict envCore
          rw [hsp, hpl, hget]
          simp [hbad, LowErr.isCaught, LowErr.msg]
      all_goals
        refine ⟨.typeError "argument should be a str or an os.PathLike object", ?_⟩
      all_goals
        unfold Envelope.from_dict envCore
      all_goals
        rw [hsp]
      all_goals
        simp [LowErr.isCaught, LowErr.msg]

/-- C4 witness: concrete malformed mappings — a record mapping missing
its `timestamp`, a record mapping with an unparsable timestamp string, an
envelope mapping missing its `source_path`, and an envelope mapping with
a malformed UUID string — all fail with the wrapping parsing error. -/
theorem claim_c4_witness :
    (∃ low, low.isCaught = true ∧
      MetadataRecord.from_dict [("hostname", .str "h")] =
        .error (.metadataRecordParsing
          ("Invalid metadata payload structure: " ++ low.msg) low)) ∧
    (∃ low, MetadataRecord.from_dict [("timestamp", .str "not-a-date")] =
        .error (.metadataRecordParsing
          ("Invalid metadata payload structure: " ++ low.msg) low)) ∧
    (∃ low, low.isCaught = true ∧
      Envelope.from_dict [("payload", .dict [])] =
        .error (.envelopeParsing ("Invalid envelope structure: " ++ low.msg) low)) ∧
    (∃ low, Envelope.from_dict
        [("source_path", .str "/a"), ("payload", .dict []),
         ("message_id", .str "zz")] =
        .error (.envelopeParsing ("Invalid envelope structure: " ++ low.msg) low)) :=
  ⟨claim_c4_parsing_errors.1 [("hostname", .str "h")] "timestamp" (by decide) rfl,
   claim_c4_parsing_errors.2.1 [("timestamp", .str "not-a-date")] "not-a-date"
     rfl (by decide),
   claim_c4_parsing_errors.2.2.1 [("payload", .dict [])] "source_path"
     (by decide) rfl,
   claim_c4_parsing_errors.2.2.2
     [("source_path", .str "/a"), ("payload", .dict []), ("message_id", .str "zz")]
     "zz" rfl (by decide)⟩
